import Mathlib

/-!
A shallow embedding in Lean 4 of the BananaBrand application's image
generation service (`src/services/geminiService.ts`) and the UI state
transitions of its `App.tsx` handlers, together with theorems settling the
specification claims about them.

Modelling conventions:
* TypeScript values that may be `undefined`/`null` become `Option` values.
* JavaScript truthiness on strings (`if (s)`) is `s ≠ ""` on present values;
  truthiness on objects is `Option.isSome`.
* `throw new Error(msg)` becomes `Except.error`; each distinct throw site of
  `extractImageFromResponse` gets its own constructor of `ExtractError`, and
  `ExtractError.message` recovers the thrown message string.  An unguarded
  property access on `undefined` (a runtime `TypeError`, not a thrown
  `Error`) is the separate constructor `ExtractError.typeError`.
* The network call `ai.models.generateContent` is abstracted as a function
  parameter from the request payload we care about (the prompt text, plus
  the inline image for refinement) to a transport outcome; a transport
  failure is `Except.error`.
* JavaScript `String.prototype.trim` is `jsTrim`, string interpolation is
  string concatenation, and `Array.prototype.join(", ")` is
  `String.intercalate ", "`.
-/

namespace BananaBrand

/-- `BrandColor` from `src/types.ts` (the `icon`-free fields). -/
structure BrandColor where
  name : String
  colors : List String
  id : String
deriving DecidableEq

/-- `VisualStyle` from `src/types.ts` (`icon?: any` is presentation-only and omitted). -/
structure VisualStyle where
  name : String
  description : String
  id : String
deriving DecidableEq

/-- `GraphicType` from `src/types.ts` (`icon?: any` omitted). -/
structure GraphicType where
  name : String
  id : String
deriving DecidableEq

/-- `GenerationConfig` from `src/types.ts`. -/
structure GenerationConfig where
  prompt : String
  colorSchemeId : String
  visualStyleId : String
  graphicTypeId : String
  aspectRatio : String
deriving DecidableEq

/-- `GeneratedImage` from `src/types.ts`. -/
structure GeneratedImage where
  imageUrl : String
  base64Data : String
  mimeType : String
deriving DecidableEq

/-- `GenerationContext` from `src/services/geminiService.ts`. -/
structure GenerationContext where
  brandColors : List BrandColor
  visualStyles : List VisualStyle
  graphicTypes : List GraphicType
deriving DecidableEq

/-- An `inlineData` object of a response part: `data` (base64 payload) and an
optional `mimeType`.  An empty-string `mimeType` stays representable, since
JavaScript distinguishes `undefined` (here `none`) from `""` (here `some ""`). -/
structure InlineData where
  data : String
  mimeType : Option String
deriving DecidableEq

/-- One content part of an API candidate: possibly an `inlineData` object,
possibly a `text` string. -/
structure Part where
  inlineData : Option InlineData
  text : Option String
deriving DecidableEq

/-- A candidate's `content` object, whose `parts` list may itself be absent. -/
structure Content where
  parts : Option (List Part)
deriving DecidableEq

/-- An API candidate; its `content` field may be absent. -/
structure Candidate where
  content : Option Content
deriving DecidableEq

/-- An API response; the `candidates` list may be absent. -/
structure ApiResponse where
  candidates : Option (List Candidate)
deriving DecidableEq

/-- The failure outcomes of `extractImageFromResponse`, one constructor per
throw site, plus `typeError` for the runtime `TypeError` raised by the
unguarded access `response.candidates[0].content.parts` (or by iterating an
absent parts list). -/
inductive ExtractError where
  | emptyResponse : ExtractError
  | modelRefused : String → ExtractError
  | noImageData : ExtractError
  | typeError : ExtractError
deriving DecidableEq

/-- The `message` of the `Error` thrown at each site of
`extractImageFromResponse`.  A runtime `TypeError`'s message is
engine-dependent; the model records only that it is none of the three
scripted messages. -/
def ExtractError.message : ExtractError → String
  | .emptyResponse => "No candidates returned from API."
  | .modelRefused t => "Model returned text instead of image: " ++ t
  | .noImageData => "No image data found in response."
  | .typeError => "TypeError"

/-- JavaScript truthiness of an optional string: `undefined` and `""` are
falsy, every other string is truthy. -/
def jsTruthy : Option String → Bool
  | none => false
  | some s => s ≠ ""

/-- The loop `for (const part of parts) { if (part.inlineData) { imagePart =
part; break; } }` of `extractImageFromResponse`: the first part whose
`inlineData` is present wins, and only its `inlineData` is used afterwards. -/
def findInlineData : List Part → Option InlineData
  | [] => none
  | p :: rest =>
    match p.inlineData with
    | some d => some d
    | none => findInlineData rest

/-- `parts.find((p) => p.text)` of `extractImageFromResponse`, returning the
`text` of the first part whose `text` is truthy (present and non-empty). -/
def findRefusalText : List Part → Option String
  | [] => none
  | p :: rest => if jsTruthy p.text then p.text else findRefusalText rest

/-- `imagePart.inlineData.mimeType || 'image/png'`: JavaScript `||` falls
through to the default on `undefined` and on the empty string alike. -/
def jsOrStr : Option String → String → String
  | none, dflt => dflt
  | some s, dflt => if s = "" then dflt else s

/-- `extractImageFromResponse` from `src/services/geminiService.ts`. -/
def extractImageFromResponse (response : ApiResponse) : Except ExtractError GeneratedImage :=
  match response.candidates with
  | none => .error .emptyResponse
  | some [] => .error .emptyResponse
  | some (c0 :: _) =>
    match c0.content with
    | none => .error .typeError
    | some content =>
      match content.parts with
      | none => .error .typeError
      | some parts =>
        match findInlineData parts with
        | some inline =>
          let base64Data := inline.data
          let mimeType := jsOrStr inline.mimeType "image/png"
          let imageUrl := "data:" ++ mimeType ++ ";base64," ++ base64Data
          .ok ⟨imageUrl, base64Data, mimeType⟩
        | none =>
          match findRefusalText parts with
          | some t => .error (.modelRefused t)
          | none => .error .noImageData

/-- JavaScript `String.prototype.trim`: drop leading and trailing whitespace. -/
def jsTrim (s : String) : String :=
  ⟨((s.data.dropWhile Char.isWhitespace).reverse.dropWhile Char.isWhitespace).reverse⟩

/-- `constructFullPrompt` from `src/services/geminiService.ts`.  The template
literal is written as the concatenation of its fixed segments with the
interpolated values; `.trim()` is `jsTrim`. -/
def constructFullPrompt (config : GenerationConfig) (context : GenerationContext) : String :=
  let colorScheme := context.brandColors.find? fun c => c.id == config.colorSchemeId
  let style := context.visualStyles.find? fun s => s.id == config.visualStyleId
  let type := context.graphicTypes.find? fun t => t.id == config.graphicTypeId
  let colors := match colorScheme with
    | some cs => String.intercalate ", " cs.colors
    | none => "standard colors"
  let styleDesc := match style with
    | some st => st.description
    | none => "clean style"
  let typeName := match type with
    | some ty => ty.name
    | none => "image"
  jsTrim ("\n    Create a " ++ typeName ++ ".\n    Visual Style: " ++ styleDesc ++
    ".\n    Color Palette: Strictly use these colors: " ++ colors ++
    ".\n    \n    Content Request: " ++ config.prompt ++
    "\n    \n    Ensure the output is high quality and adheres to the style constraints.\n  ")

/-- The refinement prompt construction inlined in `refineGraphic`
(`src/services/geminiService.ts`, lines 67-78): catalog lookups fall back to
the empty string, and the template literal is trimmed. -/
def constructRefinementPrompt (refinementPrompt : String) (config : GenerationConfig)
    (context : GenerationContext) : String :=
  let colorScheme := context.brandColors.find? fun c => c.id == config.colorSchemeId
  let style := context.visualStyles.find? fun s => s.id == config.visualStyleId
  let colors := match colorScheme with
    | some cs => String.intercalate ", " cs.colors
    | none => ""
  let styleDesc := match style with
    | some st => st.description
    | none => ""
  jsTrim ("\n    Edit this image.\n    Request: " ++ refinementPrompt ++
    ".\n    Maintain the existing style (" ++ styleDesc ++ ") and color palette (" ++
    colors ++ ").\n  ")

/-- `generateGraphic` from `src/services/geminiService.ts`.  The network call
is abstracted as `apiCall` from the prompt text to a transport outcome (the
aspect-ratio request field does not affect any claim and is absorbed into the
abstraction).  Both apiCall failure and any `extractImageFromResponse` failure
are caught by the surrounding `try`/`catch`, which rethrows the fixed generic
message. -/
def generateGraphic (apiCall : String → Except String ApiResponse)
    (config : GenerationConfig) (context : GenerationContext) :
    Except String GeneratedImage :=
  let fullPrompt := constructFullPrompt config context
  match apiCall fullPrompt with
  | .error _ => .error "Failed to generate image. Please try again."
  | .ok response =>
    match extractImageFromResponse response with
    | .ok img => .ok img
    | .error _ => .error "Failed to generate image. Please try again."

/-- `refineGraphic` from `src/services/geminiService.ts`: the request carries
the current image's inline data and the refinement prompt; any failure inside
the `try` (transport or extraction) is rethrown as the fixed generic message. -/
def refineGraphic (apiCall : InlineData × String → Except String ApiResponse)
    (currentImage : GeneratedImage) (refinementPrompt : String)
    (config : GenerationConfig) (context : GenerationContext) :
    Except String GeneratedImage :=
  let fullRefinementPrompt := constructRefinementPrompt refinementPrompt config context
  match apiCall (⟨currentImage.base64Data, some currentImage.mimeType⟩, fullRefinementPrompt) with
  | .error _ => .error "Failed to refine image. Please try again."
  | .ok response =>
    match extractImageFromResponse response with
    | .ok img => .ok img
    | .error _ => .error "Failed to refine image. Please try again."

/-- The slice of `App.tsx` component state the claims are about. -/
structure AppState where
  generatedImage : Option GeneratedImage
  isGenerating : Bool
  error : Option String
deriving DecidableEq

/-- `handleGenerate` from `src/App.tsx`, with the settled outcome of the
awaited `generateGraphic` call passed in: sets the in-progress flag and clears
the error, then on success stores the new image and on failure stores
`err.message || 'An unexpected error occurred.'`; `finally` clears the flag. -/
def handleGenerate (s : AppState) (outcome : Except String GeneratedImage) : AppState :=
  let s1 : AppState := { s with isGenerating := true, error := none }
  match outcome with
  | .ok result => { s1 with generatedImage := some result, isGenerating := false }
  | .error msg =>
    { s1 with error := some (if msg = "" then "An unexpected error occurred." else msg),
              isGenerating := false }

/-- `handleRefine` from `src/App.tsx`: returns immediately when no image is
held; otherwise mirrors `handleGenerate` with fallback message
`'Failed to refine image.'`. -/
def handleRefine (s : AppState) (outcome : Except String GeneratedImage) : AppState :=
  if s.generatedImage = none then s
  else
    let s1 : AppState := { s with isGenerating := true, error := none }
    match outcome with
    | .ok result => { s1 with generatedImage := some result, isGenerating := false }
    | .error msg =>
      { s1 with error := some (if msg = "" then "Failed to refine image." else msg),
                isGenerating := false }

/-- JavaScript `t.includes(sub)`: `sub` occurs contiguously in `t`. -/
def strIncludes (t sub : String) : Prop := sub.data <:+: t.data

instance (t sub : String) : Decidable (strIncludes t sub) :=
  inferInstanceAs (Decidable (sub.data <:+: t.data))

/-- JavaScript `t.startsWith(pre)`. -/
def strStartsWith (t pre : String) : Prop := pre.data <+: t.data

instance (t pre : String) : Decidable (strStartsWith t pre) :=
  inferInstanceAs (Decidable (pre.data <+: t.data))

/-! ### Concrete sample values used to instantiate the theorems -/

/-- A configuration whose three ids all resolve in `sampleContext`. -/
def sampleConfig : GenerationConfig :=
  ⟨"A banana mascot for a coffee brand", "c1", "s1", "t1", "1:1"⟩

/-- A catalog context with one entry per catalog. -/
def sampleContext : GenerationContext :=
  ⟨[⟨"Sunrise", ["#FFAA00", "#FF5500"], "c1"⟩],
   [⟨"Flat", "flat minimal vector style", "s1"⟩],
   [⟨"Logo", "t1"⟩]⟩

/-- A configuration whose three ids match nothing in `sampleContext`. -/
def missConfig : GenerationConfig := ⟨"A banana mascot", "zz", "zz", "zz", "1:1"⟩

/-- A reply whose only candidate carries a single text part and no inline data. -/
def refusalResponse : ApiResponse :=
  ⟨some [⟨some ⟨some [⟨none, some "I cannot create this."⟩]⟩⟩]⟩

/-- A reply with one candidate and an empty parts list. -/
def emptyPartsResponse : ApiResponse := ⟨some [⟨some ⟨some []⟩⟩]⟩

/-- A reply whose candidate has an inline-data part first and a text part second. -/
def inlineThenTextResponse : ApiResponse :=
  ⟨some [⟨some ⟨some [⟨some ⟨"QUJD", none⟩, none⟩, ⟨none, some "Here is your image"⟩]⟩⟩]⟩

/-- A reply whose inline-data part declares the MIME type `"image/jpeg"`. -/
def jpegInlineResponse : ApiResponse :=
  ⟨some [⟨some ⟨some [⟨some ⟨"QUJD", some "image/jpeg"⟩, none⟩]⟩⟩]⟩

/-- A reply whose inline-data part declares the empty string as its MIME type. -/
def emptyMimeResponse : ApiResponse :=
  ⟨some [⟨some ⟨some [⟨some ⟨"QUJD", some ""⟩, none⟩]⟩⟩]⟩

/-- A reply whose first candidate lacks a `content` object. -/
def noContentResponse : ApiResponse := ⟨some [⟨none⟩]⟩

/-- A previously generated image, used as the refinement input. -/
def sampleImage : GeneratedImage := ⟨"data:image/png;base64,QUJD", "QUJD", "image/png"⟩

/-! ### Helper lemmas about the embedded scans -/

theorem findInlineData_eq_none_iff (parts : List Part) :
    findInlineData parts = none ↔ ∀ p ∈ parts, p.inlineData = none := by
  induction parts with
  | nil => simp [findInlineData]
  | cons p rest ih =>
    cases hpd : p.inlineData with
    | some d => simp [findInlineData, hpd]
    | none => simp [findInlineData, hpd, ih]

theorem findInlineData_first (pre post : List Part) (p : Part) (d : InlineData)
    (hpre : ∀ q ∈ pre, q.inlineData = none) (hp : p.inlineData = some d) :
    findInlineData (pre ++ p :: post) = some d := by
  induction pre with
  | nil => simp [findInlineData, hp]
  | cons q rest ih =>
    have hq : q.inlineData = none := hpre q (by simp)
    simp only [List.cons_append, findInlineData, hq]
    exact ih fun r hr => hpre r (by simp [hr])

theorem findRefusalText_eq_none_iff (parts : List Part) :
    findRefusalText parts = none ↔ ∀ p ∈ parts, jsTruthy p.text = false := by
  induction parts with
  | nil => simp [findRefusalText]
  | cons p rest ih =>
    cases hpt : jsTruthy p.text with
    | true =>
      simp only [findRefusalText, hpt, if_true]
      constructor
      · intro h
        exfalso
        cases hx : p.text with
        | none => simp [jsTruthy, hx] at hpt
        | some s => rw [hx] at h; exact Option.some_ne_none s h
      · intro h
        exact absurd (h p (by simp)) (by simp [hpt])
    | false => simp [findRefusalText, hpt, ih]

theorem findRefusalText_eq_some_first (parts : List Part) (t : String)
    (h : findRefusalText parts = some t) :
    ∃ pre p post, parts = pre ++ p :: post ∧ p.text = some t ∧ t ≠ "" ∧
      ∀ q ∈ pre, jsTruthy q.text = false := by
  induction parts with
  | nil => simp [findRefusalText] at h
  | cons p rest ih =>
    cases hpt : jsTruthy p.text with
    | true =>
      simp only [findRefusalText, hpt, if_true] at h
      refine ⟨[], p, rest, by simp, h, ?_, by simp⟩
      intro ht
      rw [h, ht] at hpt
      simp [jsTruthy] at hpt
    | false =>
      simp only [findRefusalText, hpt, Bool.false_eq_true, if_false] at h
      obtain ⟨pre, q, post, heq, hq, hne, hpre⟩ := ih h
      refine ⟨p :: pre, q, post, by simp [heq], hq, hne, ?_⟩
      intro r hr
      rcases List.mem_cons.mp hr with h1 | h2
      · rw [h1]; exact hpt
      · exact hpre r h2

theorem extract_ne_emptyResponse (c0 : Candidate) (rest : List Candidate) :
    extractImageFromResponse ⟨some (c0 :: rest)⟩ ≠ .error .emptyResponse := by
  obtain ⟨ct⟩ := c0
  cases ct with
  | none => simp [extractImageFromResponse]
  | some content =>
    obtain ⟨ps⟩ := content
    cases ps with
    | none => simp [extractImageFromResponse]
    | some parts =>
      cases hfi : findInlineData parts with
      | some d => simp [extractImageFromResponse, hfi]
      | none =>
        cases hft : findRefusalText parts with
        | some t => simp [extractImageFromResponse, hfi, hft]
        | none => simp [extractImageFromResponse, hfi, hft]

theorem extract_ok_inv (response : ApiResponse) (img : GeneratedImage)
    (h : extractImageFromResponse response = .ok img) :
    ∃ d : InlineData,
      img = ⟨"data:" ++ jsOrStr d.mimeType "image/png" ++ ";base64," ++ d.data,
             d.data, jsOrStr d.mimeType "image/png"⟩ := by
  obtain ⟨cands⟩ := response
  cases cands with
  | none => simp [extractImageFromResponse] at h
  | some cs =>
    cases cs with
    | nil => simp [extractImageFromResponse] at h
    | cons c0 rest =>
      obtain ⟨ct⟩ := c0
      cases ct with
      | none => simp [extractImageFromResponse] at h
      | some content =>
        obtain ⟨ps⟩ := content
        cases ps with
        | none => simp [extractImageFromResponse] at h
        | some parts =>
          cases hfi : findInlineData parts with
          | some d =>
            refine ⟨d, ?_⟩
            simp only [extractImageFromResponse, hfi, Except.ok.injEq] at h
            exact h.symm
          | none =>
            cases hft : findRefusalText parts with
            | some t => simp [extractImageFromResponse, hfi, hft] at h
            | none => simp [extractImageFromResponse, hfi, hft] at h

theorem extract_ok_of_firstInline (response : ApiResponse) (c0 : Candidate)
    (rest : List Candidate) (content : Content) (parts : List Part) (d : InlineData)
    (hc : response.candidates = some (c0 :: rest)) (hct : c0.content = some content)
    (hp : content.parts = some parts) (hfind : findInlineData parts = some d) :
    extractImageFromResponse response =
      .ok ⟨"data:" ++ jsOrStr d.mimeType "image/png" ++ ";base64," ++ d.data,
           d.data, jsOrStr d.mimeType "image/png"⟩ := by
  simp [extractImageFromResponse, hc, hct, hp, hfind]

/-! ### Helper lemmas about `jsTrim` -/

theorem dropWhile_append_of_forall {p : Char → Bool} {l₁ l₂ : List Char}
    (h : ∀ x ∈ l₁, p x = true) : (l₁ ++ l₂).dropWhile p = l₂.dropWhile p := by
  induction l₁ with
  | nil => simp
  | cons a l ih =>
    have ha : p a = true := h a (by simp)
    simp only [List.cons_append, List.dropWhile_cons, ha, if_true]
    exact ih fun x hx => h x (by simp [hx])

theorem jsTrim_spec (pre mid suf : List Char) (c d : Char)
    (hpre : ∀ x ∈ pre, x.isWhitespace = true) (hc : c.isWhitespace = false)
    (hd : d.isWhitespace = false) (hsuf : ∀ x ∈ suf, x.isWhitespace = true) :
    jsTrim ⟨pre ++ c :: (mid ++ d :: suf)⟩ = ⟨c :: (mid ++ [d])⟩ := by
  have step1 : (pre ++ c :: (mid ++ d :: suf)).dropWhile Char.isWhitespace =
      c :: (mid ++ d :: suf) := by
    rw [dropWhile_append_of_forall hpre]
    simp [List.dropWhile_cons, hc]
  have step2 : (c :: (mid ++ d :: suf)).reverse =
      suf.reverse ++ d :: (mid.reverse ++ [c]) := by
    simp
  have step3 : (suf.reverse ++ d :: (mid.reverse ++ [c])).dropWhile Char.isWhitespace =
      d :: (mid.reverse ++ [c]) := by
    rw [dropWhile_append_of_forall fun x hx => hsuf x (List.mem_reverse.mp hx)]
    simp [List.dropWhile_cons, hd]
  show String.mk _ = String.mk _
  rw [show (String.mk (pre ++ c :: (mid ++ d :: suf))).data =
        pre ++ c :: (mid ++ d :: suf) from rfl,
      step1, step2, step3]
  simp

theorem jsTrim_fixed_of_shape (mid : List Char) (c d : Char)
    (hc : c.isWhitespace = false) (hd : d.isWhitespace = false) :
    jsTrim ⟨c :: (mid ++ [d])⟩ = ⟨c :: (mid ++ [d])⟩ := by
  have := jsTrim_spec [] mid [] c d (by simp) hc hd (by simp)
  simpa using this

set_option maxRecDepth 8000 in
theorem constructFullPrompt_resolved (config : GenerationConfig) (context : GenerationContext)
    (cs : BrandColor) (st : VisualStyle) (ty : GraphicType)
    (hcs : context.brandColors.find? (fun c => c.id == config.colorSchemeId) = some cs)
    (hst : context.visualStyles.find? (fun s => s.id == config.visualStyleId) = some st)
    (hty : context.graphicTypes.find? (fun t => t.id == config.graphicTypeId) = some ty) :
    constructFullPrompt config context =
      ⟨'C' :: ((("reate a " : String).data ++ ty.name.data ++
        (".\n    Visual Style: " : String).data ++ st.description.data ++
        (".\n    Color Palette: Strictly use these colors: " : String).data ++
        (String.intercalate ", " cs.colors).data ++
        (".\n    \n    Content Request: " : String).data ++ config.prompt.data ++
        ("\n    \n    Ensure the output is high quality and adheres to the style constraints" : String).data) ++
        ['.'])⟩ := by
  have hun : constructFullPrompt config context =
      jsTrim ("\n    Create a " ++ ty.name ++ ".\n    Visual Style: " ++ st.description ++
        ".\n    Color Palette: Strictly use these colors: " ++ String.intercalate ", " cs.colors ++
        ".\n    \n    Content Request: " ++ config.prompt ++
        "\n    \n    Ensure the output is high quality and adheres to the style constraints.\n  ") := by
    simp only [constructFullPrompt, hcs, hst, hty]
  rw [hun]
  have harg : ("\n    Create a " ++ ty.name ++ ".\n    Visual Style: " ++ st.description ++
      ".\n    Color Palette: Strictly use these colors: " ++ String.intercalate ", " cs.colors ++
      ".\n    \n    Content Request: " ++ config.prompt ++
      "\n    \n    Ensure the output is high quality and adheres to the style constraints.\n  " : String) =
      ⟨['\n', ' ', ' ', ' ', ' '] ++ 'C' :: ((("reate a " : String).data ++ ty.name.data ++
        (".\n    Visual Style: " : String).data ++ st.description.data ++
        (".\n    Color Palette: Strictly use these colors: " : String).data ++
        (String.intercalate ", " cs.colors).data ++
        (".\n    \n    Content Request: " : String).data ++ config.prompt.data ++
        ("\n    \n    Ensure the output is high quality and adheres to the style constraints" : String).data) ++
        '.' :: ['\n', ' ', ' '])⟩ := by
    apply String.ext
    show _ = ['\n', ' ', ' ', ' ', ' '] ++ 'C' :: _
    simp only [String.data_append]
    simp [List.append_assoc, List.cons_append]
  rw [harg]
  exact jsTrim_spec _ _ _ 'C' '.' (by decide) (by decide) (by decide) (by decide)

/-! ### Claim theorems -/

/-- C2: `extractImageFromResponse` classifies failures exactly per the reply
shape: it fails with `EmptyResponse` iff the candidate list is absent or
empty; given candidates whose first candidate's parts contain no inline-data
segment, it fails with `ModelRefused` carrying the first (truthy) text
segment's text when some segment has text, and with `NoImageData` when no
segment has text. -/
theorem C2_failure_classification (response : ApiResponse) :
    (extractImageFromResponse response = .error .emptyResponse ↔
      response.candidates = none ∨ response.candidates = some []) ∧
    (∀ c0 rest content parts,
      response.candidates = some (c0 :: rest) → c0.content = some content →
      content.parts = some parts → (∀ p ∈ parts, p.inlineData = none) →
      ((∃ p ∈ parts, jsTruthy p.text = true) →
        ∃ t, extractImageFromResponse response = .error (.modelRefused t) ∧
          ∃ pre q post, parts = pre ++ q :: post ∧ q.text = some t ∧
            ∀ r ∈ pre, jsTruthy r.text = false) ∧
      ((∀ p ∈ parts, jsTruthy p.text = false) →
        extractImageFromResponse response = .error .noImageData)) := by
  obtain ⟨cands⟩ := response
  constructor
  · cases cands with
    | none => simp [extractImageFromResponse]
    | some cs =>
      cases cs with
      | nil => simp [extractImageFromResponse]
      | cons c0 rest =>
        constructor
        · intro h
          exact absurd h (extract_ne_emptyResponse c0 rest)
        · rintro (h | h) <;> simp at h
  · intro c0 rest content parts hc hct hp hnoinline
    have hc' : cands = some (c0 :: rest) := hc
    subst hc'
    obtain ⟨ct⟩ := c0
    have hct' : ct = some content := hct
    subst hct'
    obtain ⟨ps⟩ := content
    have hp' : ps = some parts := hp
    subst hp'
    have hfind : findInlineData parts = none := (findInlineData_eq_none_iff parts).mpr hnoinline
    constructor
    · rintro ⟨p, hmem, htruthy⟩
      cases hft : findRefusalText parts with
      | none =>
        exact absurd ((findRefusalText_eq_none_iff parts).mp hft p hmem) (by simp [htruthy])
      | some t =>
        refine ⟨t, by simp [extractImageFromResponse, hfind, hft], ?_⟩
        obtain ⟨pre, q, post, heq, hq, _, hpre⟩ := findRefusalText_eq_some_first parts t hft
        exact ⟨pre, q, post, heq, hq, hpre⟩
    · intro hall
      have hft : findRefusalText parts = none := (findRefusalText_eq_none_iff parts).mpr hall
      simp [extractImageFromResponse, hfind, hft]

/-- C2 witness: a reply with one candidate and an empty parts list fails with
`NoImageData`. -/
theorem C2_failure_classification_witness :
    extractImageFromResponse emptyPartsResponse = .error .noImageData :=
  ((C2_failure_classification emptyPartsResponse).2 ⟨some ⟨some []⟩⟩ [] ⟨some []⟩ []
    rfl rfl rfl (by simp)).2 (by simp)

/-- C3: whenever the first candidate's parts split as `pre ++ p :: post` with
no inline data in `pre` and inline data `d` in `p`, the extractor returns the
image built from `d` alone — all later parts (`post`), text or inline, are
ignored. -/
theorem C3_first_inline_segment_wins (response : ApiResponse) (c0 : Candidate)
    (rest : List Candidate) (content : Content) (parts pre post : List Part)
    (p : Part) (d : InlineData)
    (hc : response.candidates = some (c0 :: rest)) (hct : c0.content = some content)
    (hp : content.parts = some parts) (hsplit : parts = pre ++ p :: post)
    (hpre : ∀ q ∈ pre, q.inlineData = none) (hd : p.inlineData = some d) :
    extractImageFromResponse response =
      .ok ⟨"data:" ++ jsOrStr d.mimeType "image/png" ++ ";base64," ++ d.data,
           d.data, jsOrStr d.mimeType "image/png"⟩ := by
  subst hsplit
  exact extract_ok_of_firstInline response c0 rest content _ d hc hct hp
    (findInlineData_first pre post p d hpre hd)

/-- C3 witness: with an inline-data part first and a text part second, the
image is returned and the text ignored. -/
theorem C3_first_inline_segment_wins_witness :
    extractImageFromResponse inlineThenTextResponse =
      .ok ⟨"data:image/png;base64,QUJD", "QUJD", "image/png"⟩ :=
  C3_first_inline_segment_wins inlineThenTextResponse
    ⟨some ⟨some [⟨some ⟨"QUJD", none⟩, none⟩, ⟨none, some "Here is your image"⟩]⟩⟩ []
    ⟨some [⟨some ⟨"QUJD", none⟩, none⟩, ⟨none, some "Here is your image"⟩]⟩
    [⟨some ⟨"QUJD", none⟩, none⟩, ⟨none, some "Here is your image"⟩]
    [] [⟨none, some "Here is your image"⟩] ⟨some ⟨"QUJD", none⟩, none⟩ ⟨"QUJD", none⟩
    rfl rfl rfl rfl (by simp) rfl

/-- C4: when the winning inline-data segment declares no MIME type the result's
`mimeType` is `"image/png"` and its `imageUrl` starts with
`"data:image/png;base64,"`; when a (non-empty) MIME type is declared, that
declared value is used instead. -/
theorem C4_mimeType_defaulting (response : ApiResponse) (c0 : Candidate)
    (rest : List Candidate) (content : Content) (parts pre post : List Part)
    (p : Part) (d : InlineData)
    (hc : response.candidates = some (c0 :: rest)) (hct : c0.content = some content)
    (hp : content.parts = some parts) (hsplit : parts = pre ++ p :: post)
    (hpre : ∀ q ∈ pre, q.inlineData = none) (hd : p.inlineData = some d) :
    (d.mimeType = none →
      ∃ img, extractImageFromResponse response = .ok img ∧
        img.mimeType = "image/png" ∧
        strStartsWith img.imageUrl "data:image/png;base64,") ∧
    (∀ m, d.mimeType = some m → m ≠ "" →
      ∃ img, extractImageFromResponse response = .ok img ∧ img.mimeType = m) := by
  have hok := extract_ok_of_firstInline response c0 rest content parts d hc hct hp
    (by rw [hsplit]; exact findInlineData_first pre post p d hpre hd)
  constructor
  · intro hmt
    rw [hmt] at hok
    refine ⟨_, hok, rfl, ?_⟩
    show strStartsWith ("data:" ++ jsOrStr none "image/png" ++ ";base64," ++ d.data)
      "data:image/png;base64,"
    refine ⟨d.data.data, ?_⟩
    show ("data:image/png;base64," : String).data ++ d.data.data = _
    simp only [String.data_append]
    rfl
  · intro m hmt hne
    rw [hmt] at hok
    refine ⟨_, hok, ?_⟩
    show jsOrStr (some m) "image/png" = m
    simp [jsOrStr, hne]

/-- C4 witness: the default applies to `inlineThenTextResponse` (no declared
MIME type) and the declared value `"image/jpeg"` is kept for
`jpegInlineResponse`. -/
theorem C4_mimeType_defaulting_witness :
    (∃ img, extractImageFromResponse inlineThenTextResponse = .ok img ∧
      img.mimeType = "image/png" ∧
      strStartsWith img.imageUrl "data:image/png;base64,") ∧
    (∃ img, extractImageFromResponse jpegInlineResponse = .ok img ∧
      img.mimeType = "image/jpeg") := by
  constructor
  · exact (C4_mimeType_defaulting inlineThenTextResponse
      ⟨some ⟨some [⟨some ⟨"QUJD", none⟩, none⟩, ⟨none, some "Here is your image"⟩]⟩⟩ []
      ⟨some [⟨some ⟨"QUJD", none⟩, none⟩, ⟨none, some "Here is your image"⟩]⟩
      [⟨some ⟨"QUJD", none⟩, none⟩, ⟨none, some "Here is your image"⟩]
      [] [⟨none, some "Here is your image"⟩] ⟨some ⟨"QUJD", none⟩, none⟩ ⟨"QUJD", none⟩
      rfl rfl rfl rfl (by simp) rfl).1 rfl
  · exact (C4_mimeType_defaulting jpegInlineResponse
      ⟨some ⟨some [⟨some ⟨"QUJD", some "image/jpeg"⟩, none⟩]⟩⟩ []
      ⟨some [⟨some ⟨"QUJD", some "image/jpeg"⟩, none⟩]⟩
      [⟨some ⟨"QUJD", some "image/jpeg"⟩, none⟩]
      [] [] ⟨some ⟨"QUJD", some "image/jpeg"⟩, none⟩ ⟨"QUJD", some "image/jpeg"⟩
      rfl rfl rfl rfl (by simp) rfl).2 "image/jpeg" rfl (by decide)

/-- C5: every successful result of `extractImageFromResponse` satisfies the
invariant `imageUrl = "data:" ++ mimeType ++ ";base64," ++ base64Data`. -/
theorem C5_imageUrl_derived (response : ApiResponse) (img : GeneratedImage)
    (h : extractImageFromResponse response = .ok img) :
    img.imageUrl = "data:" ++ img.mimeType ++ ";base64," ++ img.base64Data := by
  obtain ⟨d, rfl⟩ := extract_ok_inv response img h
  rfl

/-- C5 witness: the invariant holds for the result extracted from
`jpegInlineResponse`. -/
theorem C5_imageUrl_derived_witness :
    (⟨"data:image/jpeg;base64,QUJD", "QUJD", "image/jpeg"⟩ : GeneratedImage).imageUrl =
      "data:" ++
        (⟨"data:image/jpeg;base64,QUJD", "QUJD", "image/jpeg"⟩ : GeneratedImage).mimeType ++
        ";base64," ++
        (⟨"data:image/jpeg;base64,QUJD", "QUJD", "image/jpeg"⟩ : GeneratedImage).base64Data :=
  C5_imageUrl_derived jpegInlineResponse
    ⟨"data:image/jpeg;base64,QUJD", "QUJD", "image/jpeg"⟩ rfl

/-- C9: when the first candidate lacks a `content` object or a `parts` list,
the unguarded access `response.candidates[0].content.parts` raises an untyped
runtime error distinct from the three scripted diagnoses; every reply whose
first candidate does carry content with parts yields either a result or one
of the three scripted diagnoses. -/
theorem C9_unguarded_content_access (response : ApiResponse) :
    (∀ c0 rest, response.candidates = some (c0 :: rest) →
      (c0.content = none ∨ ∃ ct, c0.content = some ct ∧ ct.parts = none) →
      extractImageFromResponse response = .error .typeError ∧
        ExtractError.typeError ≠ .emptyResponse ∧
        (∀ t, ExtractError.typeError ≠ .modelRefused t) ∧
        ExtractError.typeError ≠ .noImageData) ∧
    ((∀ c0 rest, response.candidates = some (c0 :: rest) →
        ∃ ct parts, c0.content = some ct ∧ ct.parts = some parts) →
      (∃ img, extractImageFromResponse response = .ok img) ∨
      extractImageFromResponse response = .error .emptyResponse ∨
      (∃ t, extractImageFromResponse response = .error (.modelRefused t)) ∨
      extractImageFromResponse response = .error .noImageData) := by
  obtain ⟨cands⟩ := response
  constructor
  · intro c0 rest hc hbad
    have hc' : cands = some (c0 :: rest) := hc
    subst hc'
    obtain ⟨ct⟩ := c0
    refine ⟨?_, by simp, by simp, by simp⟩
    rcases hbad with hnone | ⟨ct', hct, hparts⟩
    · have h1 : ct = none := hnone
      subst h1
      simp [extractImageFromResponse]
    · have h1 : ct = some ct' := hct
      subst h1
      obtain ⟨ps⟩ := ct'
      have h2 : ps = none := hparts
      subst h2
      simp [extractImageFromResponse]
  · intro hgood
    cases cands with
    | none => exact Or.inr (Or.inl (by simp [extractImageFromResponse]))
    | some cs =>
      cases cs with
      | nil => exact Or.inr (Or.inl (by simp [extractImageFromResponse]))
      | cons c0 rest =>
        obtain ⟨ct', parts, hct, hp⟩ := hgood c0 rest rfl
        obtain ⟨ct⟩ := c0
        have h1 : ct = some ct' := hct
        subst h1
        obtain ⟨ps⟩ := ct'
        have h2 : ps = some parts := hp
        subst h2
        cases hfi : findInlineData parts with
        | some d =>
          exact Or.inl ⟨⟨"data:" ++ jsOrStr d.mimeType "image/png" ++ ";base64," ++ d.data,
            d.data, jsOrStr d.mimeType "image/png"⟩, by simp [extractImageFromResponse, hfi]⟩
        | none =>
          cases hft : findRefusalText parts with
          | some t =>
            exact Or.inr (Or.inr (Or.inl ⟨t, by simp [extractImageFromResponse, hfi, hft]⟩))
          | none =>
            exact Or.inr (Or.inr (Or.inr (by simp [extractImageFromResponse, hfi, hft])))

/-- C9 witness: a first candidate with no `content` object produces the
untyped runtime error, and a well-shaped refusal reply produces one of the
scripted diagnoses. -/
theorem C9_unguarded_content_access_witness :
    extractImageFromResponse noContentResponse = .error .typeError ∧
    (∃ t, extractImageFromResponse refusalResponse = .error (.modelRefused t)) := by
  constructor
  · exact ((C9_unguarded_content_access noContentResponse).1 ⟨none⟩ [] rfl (Or.inl rfl)).1
  · have hgood : ∀ c0 rest, refusalResponse.candidates = some (c0 :: rest) →
        ∃ ct parts, c0.content = some ct ∧ ct.parts = some parts := by
      intro c0 rest h
      simp only [refusalResponse, Option.some.injEq, List.cons.injEq] at h
      obtain ⟨h1, _⟩ := h
      exact ⟨⟨some [⟨none, some "I cannot create this."⟩]⟩,
        [⟨none, some "I cannot create this."⟩], by rw [← h1], rfl⟩
    rcases (C9_unguarded_content_access refusalResponse).2 hgood with ⟨img, h⟩ | h | h | h
    · exact absurd h (by intro hx; rw [show extractImageFromResponse refusalResponse =
        .error (.modelRefused "I cannot create this.") from rfl] at hx; cases hx)
    · exact absurd h (by intro hx; rw [show extractImageFromResponse refusalResponse =
        .error (.modelRefused "I cannot create this.") from rfl] at hx; cases hx)
    · exact h
    · exact absurd h (by intro hx; rw [show extractImageFromResponse refusalResponse =
        .error (.modelRefused "I cannot create this.") from rfl] at hx; cases hx)

/-- C10: an inline-data segment declaring the empty string as its MIME type
also gets the `"image/png"` default, and consequently the `mimeType` of every
returned result is non-empty. -/
theorem C10_empty_mimeType_defaults :
    (∀ (response : ApiResponse) (c0 : Candidate) (rest : List Candidate)
        (content : Content) (parts pre post : List Part) (p : Part) (d : InlineData),
      response.candidates = some (c0 :: rest) → c0.content = some content →
      content.parts = some parts → parts = pre ++ p :: post →
      (∀ q ∈ pre, q.inlineData = none) → p.inlineData = some d →
      d.mimeType = some "" →
      extractImageFromResponse response =
        .ok ⟨"data:" ++ "image/png" ++ ";base64," ++ d.data, d.data, "image/png"⟩) ∧
    (∀ (response : ApiResponse) (img : GeneratedImage),
      extractImageFromResponse response = .ok img → img.mimeType ≠ "") := by
  constructor
  · intro response c0 rest content parts pre post p d hc hct hp hsplit hpre hd hmt
    have hok := extract_ok_of_firstInline response c0 rest content parts d hc hct hp
      (by rw [hsplit]; exact findInlineData_first pre post p d hpre hd)
    rw [hmt] at hok
    exact hok
  · intro response img h
    obtain ⟨d, rfl⟩ := extract_ok_inv response img h
    show jsOrStr d.mimeType "image/png" ≠ ""
    cases hmt : d.mimeType with
    | none => simp [jsOrStr]
    | some m =>
      by_cases hm : m = "" <;> simp [jsOrStr, hm]

/-- C10 witness: `emptyMimeResponse` (declared MIME type `""`) yields the
`"image/png"` default, and the result extracted from `jpegInlineResponse` has
a non-empty `mimeType`. -/
theorem C10_empty_mimeType_defaults_witness :
    extractImageFromResponse emptyMimeResponse =
      .ok ⟨"data:" ++ "image/png" ++ ";base64," ++ "QUJD", "QUJD", "image/png"⟩ ∧
    (⟨"data:image/jpeg;base64,QUJD", "QUJD", "image/jpeg"⟩ : GeneratedImage).mimeType ≠ "" := by
  constructor
  · exact C10_empty_mimeType_defaults.1 emptyMimeResponse
      ⟨some ⟨some [⟨some ⟨"QUJD", some ""⟩, none⟩]⟩⟩ []
      ⟨some [⟨some ⟨"QUJD", some ""⟩, none⟩]⟩ [⟨some ⟨"QUJD", some ""⟩, none⟩]
      [] [] ⟨some ⟨"QUJD", some ""⟩, none⟩ ⟨"QUJD", some ""⟩
      rfl rfl rfl rfl (by simp) rfl rfl
  · exact C10_empty_mimeType_defaults.2 jpegInlineResponse
      ⟨"data:image/jpeg;base64,QUJD", "QUJD", "image/jpeg"⟩ rfl

set_option maxRecDepth 8000 in
/-- C6: when all three ids resolve, the generation prompt contains, as literal
substrings, the resolved graphic type name, the resolved style description,
the resolved color list joined by `", "`, and the user's prompt verbatim; and
the returned string is whitespace-trimmed. -/
theorem C6_generation_prompt_contents (config : GenerationConfig) (context : GenerationContext)
    (cs : BrandColor) (st : VisualStyle) (ty : GraphicType)
    (hcs : context.brandColors.find? (fun c => c.id == config.colorSchemeId) = some cs)
    (hst : context.visualStyles.find? (fun s => s.id == config.visualStyleId) = some st)
    (hty : context.graphicTypes.find? (fun t => t.id == config.graphicTypeId) = some ty) :
    strIncludes (constructFullPrompt config context) ty.name ∧
    strIncludes (constructFullPrompt config context) st.description ∧
    strIncludes (constructFullPrompt config context) (String.intercalate ", " cs.colors) ∧
    strIncludes (constructFullPrompt config context) config.prompt ∧
    jsTrim (constructFullPrompt config context) = constructFullPrompt config context := by
  have hP := constructFullPrompt_resolved config context cs st ty hcs hst hty
  rw [hP]
  refine ⟨?_, ?_, ?_, ?_, ?_⟩
  · refine ⟨'C' :: ("reate a " : String).data,
      (".\n    Visual Style: " : String).data ++ st.description.data ++
        (".\n    Color Palette: Strictly use these colors: " : String).data ++
        (String.intercalate ", " cs.colors).data ++
        (".\n    \n    Content Request: " : String).data ++ config.prompt.data ++
        ("\n    \n    Ensure the output is high quality and adheres to the style constraints" : String).data ++
        ['.'], ?_⟩
    simp [List.append_assoc]
  · refine ⟨'C' :: ("reate a " : String).data ++ ty.name.data ++
      (".\n    Visual Style: " : String).data,
      (".\n    Color Palette: Strictly use these colors: " : String).data ++
        (String.intercalate ", " cs.colors).data ++
        (".\n    \n    Content Request: " : String).data ++ config.prompt.data ++
        ("\n    \n    Ensure the output is high quality and adheres to the style constraints" : String).data ++
        ['.'], ?_⟩
    simp [List.append_assoc]
  · refine ⟨'C' :: ("reate a " : String).data ++ ty.name.data ++
      (".\n    Visual Style: " : String).data ++ st.description.data ++
      (".\n    Color Palette: Strictly use these colors: " : String).data,
      (".\n    \n    Content Request: " : String).data ++ config.prompt.data ++
        ("\n    \n    Ensure the output is high quality and adheres to the style constraints" : String).data ++
        ['.'], ?_⟩
    simp [List.append_assoc]
  · refine ⟨'C' :: ("reate a " : String).data ++ ty.name.data ++
      (".\n    Visual Style: " : String).data ++ st.description.data ++
      (".\n    Color Palette: Strictly use these colors: " : String).data ++
      (String.intercalate ", " cs.colors).data ++
      (".\n    \n    Content Request: " : String).data,
      ("\n    \n    Ensure the output is high quality and adheres to the style constraints" : String).data ++
        ['.'], ?_⟩
    simp [List.append_assoc]
  · exact jsTrim_fixed_of_shape _ 'C' '.' (by decide) (by decide)

/-- C6 witness: instantiation at `sampleConfig` and `sampleContext`, whose
three ids resolve to the single entries of each catalog. -/
theorem C6_generation_prompt_contents_witness :
    strIncludes (constructFullPrompt sampleConfig sampleContext) "Logo" ∧
    strIncludes (constructFullPrompt sampleConfig sampleContext) "flat minimal vector style" ∧
    strIncludes (constructFullPrompt sampleConfig sampleContext)
      (String.intercalate ", " ["#FFAA00", "#FF5500"]) ∧
    strIncludes (constructFullPrompt sampleConfig sampleContext)
      "A banana mascot for a coffee brand" ∧
    jsTrim (constructFullPrompt sampleConfig sampleContext) =
      constructFullPrompt sampleConfig sampleContext :=
  C6_generation_prompt_contents sampleConfig sampleContext
    ⟨"Sunrise", ["#FFAA00", "#FF5500"], "c1"⟩
    ⟨"Flat", "flat minimal vector style", "s1"⟩
    ⟨"Logo", "t1"⟩ rfl rfl rfl

/-- C7: when no id matches its catalog, the generation prompt builder
substitutes the fixed fallbacks `"image"`, `"clean style"` and
`"standard colors"` (and raises no error, being a total function), while the
refinement prompt builder substitutes the empty string for both the style
description and the color list. -/
theorem C7_missing_id_fallbacks (config : GenerationConfig) (context : GenerationContext)
    (refinementPrompt : String)
    (hcs : context.brandColors.find? (fun c => c.id == config.colorSchemeId) = none)
    (hst : context.visualStyles.find? (fun s => s.id == config.visualStyleId) = none)
    (hty : context.graphicTypes.find? (fun t => t.id == config.graphicTypeId) = none) :
    constructFullPrompt config context =
      jsTrim ("\n    Create a " ++ "image" ++ ".\n    Visual Style: " ++ "clean style" ++
        ".\n    Color Palette: Strictly use these colors: " ++ "standard colors" ++
        ".\n    \n    Content Request: " ++ config.prompt ++
        "\n    \n    Ensure the output is high quality and adheres to the style constraints.\n  ") ∧
    constructRefinementPrompt refinementPrompt config context =
      jsTrim ("\n    Edit this image.\n    Request: " ++ refinementPrompt ++
        ".\n    Maintain the existing style (" ++ "" ++ ") and color palette (" ++
        "" ++ ").\n  ") := by
  constructor
  · simp only [constructFullPrompt, hcs, hst, hty]
  · simp only [constructRefinementPrompt, hcs, hst]

/-- C7 witness: instantiation at `missConfig`, whose ids match nothing in
`sampleContext`. -/
theorem C7_missing_id_fallbacks_witness :
    constructFullPrompt missConfig sampleContext =
      jsTrim ("\n    Create a " ++ "image" ++ ".\n    Visual Style: " ++ "clean style" ++
        ".\n    Color Palette: Strictly use these colors: " ++ "standard colors" ++
        ".\n    \n    Content Request: " ++ missConfig.prompt ++
        "\n    \n    Ensure the output is high quality and adheres to the style constraints.\n  ") ∧
    constructRefinementPrompt "add a hat" missConfig sampleContext =
      jsTrim ("\n    Edit this image.\n    Request: " ++ "add a hat" ++
        ".\n    Maintain the existing style (" ++ "" ++ ") and color palette (" ++
        "" ++ ").\n  ") :=
  C7_missing_id_fallbacks missConfig sampleContext "add a hat" rfl rfl rfl

/-- C8: a failed generation or refinement request leaves the UI's
current-image state unchanged, while a successful generation stores the new
image; the handlers assign an image only on success. -/
theorem C8_failure_retains_image (s : AppState) (msg : String) (result : GeneratedImage) :
    (handleGenerate s (.error msg)).generatedImage = s.generatedImage ∧
    (handleRefine s (.error msg)).generatedImage = s.generatedImage ∧
    (handleGenerate s (.ok result)).generatedImage = some result := by
  refine ⟨rfl, ?_, rfl⟩
  by_cases h : s.generatedImage = none <;> simp [handleRefine, h]

/-- C1 counterexample: for a reply whose only candidate carries text and no
inline data, `extractImageFromResponse` diagnoses the refusal with the text,
but `generateGraphic` and `refineGraphic` fail with the fixed generic
wrappers, whose messages do not include the text — so the diagnosis is not
propagated to their caller, contrary to the claim. -/
theorem C1_counterexample :
    extractImageFromResponse refusalResponse =
      .error (.modelRefused "I cannot create this.") ∧
    generateGraphic (fun _ => .ok refusalResponse) sampleConfig sampleContext =
      .error "Failed to generate image. Please try again." ∧
    refineGraphic (fun _ => .ok refusalResponse) sampleImage "make it bluer"
        sampleConfig sampleContext =
      .error "Failed to refine image. Please try again." ∧
    ¬ strIncludes "Failed to generate image. Please try again." "I cannot create this." ∧
    ¬ strIncludes "Failed to refine image. Please try again." "I cannot create this." :=
  ⟨rfl, rfl, rfl, by decide, by decide⟩

/-- C1 (amended): for every reply whose first candidate has a text segment but
no inline-data segment, `extractImageFromResponse` fails with `ModelRefused`
whose message includes the text verbatim, but `generateGraphic` and
`refineGraphic` replace this failure — like every failure inside their
`try` blocks — with their fixed generic wrapper, so their caller receives the
generic message instead. -/
theorem C1_generic_wrapper_swallows_refusal (response : ApiResponse) (c0 : Candidate)
    (rest : List Candidate) (content : Content) (parts : List Part) (t : String)
    (hc : response.candidates = some (c0 :: rest)) (hct : c0.content = some content)
    (hp : content.parts = some parts) (hfi : findInlineData parts = none)
    (hft : findRefusalText parts = some t)
    (config : GenerationConfig) (context : GenerationContext)
    (currentImage : GeneratedImage) (refinementPrompt : String) :
    extractImageFromResponse response = .error (.modelRefused t) ∧
    strIncludes (ExtractError.message (.modelRefused t)) t ∧
    generateGraphic (fun _ => .ok response) config context =
      .error "Failed to generate image. Please try again." ∧
    refineGraphic (fun _ => .ok response) currentImage refinementPrompt config context =
      .error "Failed to refine image. Please try again." := by
  have hex : extractImageFromResponse response = .error (.modelRefused t) := by
    obtain ⟨cands⟩ := response
    have hc' : cands = some (c0 :: rest) := hc
    subst hc'
    obtain ⟨ct⟩ := c0
    have hct' : ct = some content := hct
    subst hct'
    obtain ⟨ps⟩ := content
    have hp' : ps = some parts := hp
    subst hp'
    simp [extractImageFromResponse, hfi, hft]
  refine ⟨hex, ?_, ?_, ?_⟩
  · show t.data <:+: ("Model returned text instead of image: " ++ t).data
    refine ⟨("Model returned text instead of image: " : String).data, [], ?_⟩
    simp [String.data_append]
  · simp [generateGraphic, hex]
  · simp [refineGraphic, hex]

/-- C1 (amended) witness: instantiation at `refusalResponse` with text
`"I cannot create this."`. -/
theorem C1_generic_wrapper_swallows_refusal_witness :
    extractImageFromResponse refusalResponse =
      .error (.modelRefused "I cannot create this.") ∧
    strIncludes (ExtractError.message (.modelRefused "I cannot create this."))
      "I cannot create this." ∧
    generateGraphic (fun _ => .ok refusalResponse) sampleConfig sampleContext =
      .error "Failed to generate image. Please try again." ∧
    refineGraphic (fun _ => .ok refusalResponse) sampleImage "make it bluer"
        sampleConfig sampleContext =
      .error "Failed to refine image. Please try again." :=
  C1_generic_wrapper_swallows_refusal refusalResponse
    ⟨some ⟨some [⟨none, some "I cannot create this."⟩]⟩⟩ []
    ⟨some [⟨none, some "I cannot create this."⟩]⟩ [⟨none, some "I cannot create this."⟩]
    "I cannot create this." rfl rfl rfl rfl rfl
    sampleConfig sampleContext sampleImage "make it bluer"

end BananaBrand
